import Mathlib

set_option maxRecDepth 100000

/-!
Verification of the Innovanta-Solutions serverless analysis layer.

The development shallowly embeds the two source files:

* the Firebase callable cloud function `analyzeCsvContent` (with its module
  initialisation, MongoDB connection helper and Gemini wrapper), modelled in
  namespace `Callable`;
* the Vercel HTTP endpoint `api/analyze.js`, modelled in namespace `Vercel`.

External services (the document store and the generation service) are modelled
by an environment record that fixes the outcome of each outbound call; the
handlers are then deterministic functions from (module state, environment,
request) to a result, a trace of outbound calls, and the final state of the
stored Report Record.
-/

/-! ## JavaScript-style values and string helpers -/

/-- A JavaScript value as it can appear in a request payload field.
`Option JSVal` models a possibly-absent (undefined) field. -/
inductive JSVal where
  | str (s : String)
  | num (n : Int)
  | boolean (b : Bool)
  | null
  deriving Repr, DecidableEq

/-- JavaScript truthiness of a value. -/
def JSVal.truthy : JSVal → Bool
  | .str s => !(s == "")
  | .num n => !(n == 0)
  | .boolean b => b
  | .null => false

/-- Whether `typeof v === "string"`. -/
def JSVal.isString : JSVal → Bool
  | .str _ => true
  | _ => false

/-- The underlying string of a string value (only used on validated values). -/
def JSVal.asString : JSVal → String
  | .str s => s
  | _ => ""

/-- Characters removed by JavaScript `String.prototype.trim` (ASCII range). -/
def isJsWhitespace (c : Char) : Bool :=
  c == ' ' || c == '\t' || c == '\n' || c == '\r' || c == '\x0b' || c == '\x0c'

/-- JavaScript `s.trim()`. -/
def jsTrim (s : String) : String :=
  String.mk (((s.data.dropWhile isJsWhitespace).reverse.dropWhile isJsWhitespace).reverse)

/-- Does the character list `hay` start with `needle`? -/
def charsStartWith : List Char → List Char → Bool
  | [], _ => true
  | _ :: _, [] => false
  | n :: ns, h :: hs => n == h && charsStartWith ns hs

/-- Does `needle` occur contiguously inside `hay`? -/
def charsOccurIn (needle : List Char) : List Char → Bool
  | [] => needle.isEmpty
  | h :: hs => charsStartWith needle (h :: hs) || charsOccurIn needle hs

/-- Substring occurrence test on strings. -/
def containsStr (needle hay : String) : Bool :=
  charsOccurIn needle.data hay.data

/-! ## Generation-service response shape

Mirrors the JSON shape `result.response.candidates[0].content.parts[0].text`;
every level that the JavaScript accesses behind an optional chain or a
truthiness test is an `Option`. -/

/-- One element of `content.parts`. -/
structure GenPart where
  text : Option String
  deriving Repr, DecidableEq

/-- `candidate.content`. -/
structure GenContent where
  parts : List GenPart
  deriving Repr, DecidableEq

/-- One element of `response.candidates`. -/
structure GenCandidate where
  content : Option GenContent
  deriving Repr, DecidableEq

/-- A generation-service response object. -/
structure GenResponse where
  candidates : Option (List GenCandidate)
  deriving Repr, DecidableEq

/-- The object returned by `model.generateContent` in the callable function:
`result.response` may itself be absent. -/
structure GenResult where
  response : Option GenResponse
  deriving Repr, DecidableEq

/-- The optional chain `response.candidates?.[0]?.content?.parts?.[0]?.text`. -/
def candidatesText (r : GenResponse) : Option String :=
  match r.candidates with
  | none => none
  | some cands =>
    match cands.head? with
    | none => none
    | some c =>
      match c.content with
      | none => none
      | some ct =>
        match ct.parts.head? with
        | none => none
        | some p => p.text

/-! ## Report Records and outbound-call traces -/

/-- The Report Record document inserted into the `analysisReports` collection
(part_000 lines 112-119); `lastUpdated` is only added by a later update. -/
structure AnalysisRecord where
  userId : String
  fileName : String
  status : String
  createdAt : Nat
  report : Option String
  error : Option String
  lastUpdated : Option Nat
  deriving Repr, DecidableEq

/-- One outbound call made by a handler, in order of occurrence. -/
inductive Event where
  | connect
  | insert (record : AnalysisRecord)
  | generate (systemInstruction : String) (userQuery : String)
  | updateCompleted (id : Nat) (reportText : String)
  | updateError (id : Nat) (message : String)
  deriving Repr, DecidableEq

namespace Callable

/-! ## Module initialisation (part_000 lines 18-62) -/

/-- The `mongodb` section of `functions.config()`. -/
structure MongoCfg where
  uri : Option String
  deriving Repr, DecidableEq

/-- The `gemini` section of `functions.config()`. -/
structure GeminiCfg where
  key : Option String
  deriving Repr, DecidableEq

/-- The Firebase functions configuration; either section may be absent. -/
structure RawConfig where
  mongodb : Option MongoCfg
  gemini : Option GeminiCfg
  deriving Repr, DecidableEq

/-- An initialised `GoogleGenerativeAI` client. -/
structure GenAI where
  apiKey : String
  deriving Repr, DecidableEq

/-- Module-level state after the top of part_000 has run:
`mongoUri` (line 20) and `genAI` (lines 52-62). -/
structure ModuleState where
  mongoUri : Option String
  genAI : Option GenAI
  deriving Repr, DecidableEq

/-- Module load (part_000 lines 18-62).  Reading
`functions.config().mongodb.uri` (line 20) is not guarded, so an absent
`mongodb` section raises and aborts the load.  The Gemini initialisation
(lines 52-62) sits inside a try/catch whose catch only logs, so an absent or
empty key leaves `genAI` unset without aborting the load. -/
def moduleLoad (cfg : RawConfig) : Except String ModuleState :=
  match cfg.mongodb with
  | none => .error "TypeError: Cannot read properties of undefined (reading \x27uri\x27)"
  | some m =>
    let genAI : Option GenAI :=
      match cfg.gemini with
      | none => none
      | some g =>
        match g.key with
        | none => none
        | some k => if k == "" then none else some ⟨k⟩
    .ok { mongoUri := m.uri, genAI := genAI }

/-- The fixed analyst persona instruction (part_000 lines 65-73). -/
def systemPrompt : String := "You are a world-class SME Financial and Business Analyst. Your task is to process the following raw CSV data and return a detailed, professional business report. The response must be structured using Markdown.\n\nThe report should contain the following five sections, using the data provided:\n1. EXECUTIVE SUMMARY: A single paragraph summarizing the key trends and overall health.\n2. ACTIONABLE INSIGHTS: Provide 5 clear, numbered, and specific recommendations to boost efficiency and ROI based on the data. Use standard markdown list format (* item).\n3. KEY PERFORMANCE INDICATORS (KPIs) & TRENDS: Calculate and present 3-4 key growth metrics (e.g., total profit, average revenue/customer, profit margin percentage) and describe a clear trend (positive/negative) for each. Use standard markdown list format (* item).\n4. ROI & FORECAST: Provide a short forecast (2-3 sentences) based on current performance AND explicitly state a \x27Projected ROI %\x27 as a number followed by \x27%\x27.\n5. CRITICAL ALERTS: List any critical issues found (e.g., * High Customer Churn Rate). If none, state explicitly \"No Critical Alerts Detected.\" Use standard markdown list format (* item).\n"

/-! ## Per-request environment -/

/-- Outcomes of the external services for one invocation.  `Except` failures
model thrown exceptions; the `Bool` in an update outcome is whether the
document was matched and modified (`modifiedCount` 1 versus 0). -/
structure Env where
  hasLiveConnection : Bool
  connectOutcome : Except String Unit
  insertOutcome : Except String Nat
  genOutcome : Except String GenResult
  updateCompletedOutcome : Except String Bool
  updateErrorOutcome : Except String Bool
  insertTime : Nat
  updateTime : Nat

/-- `connectToMongo` (part_000 lines 25-47): reuse a live connection, else
fail if the URI is absent, else attempt a fresh connection. -/
def connectToMongo (st : ModuleState) (env : Env) : Except String Unit :=
  if env.hasLiveConnection then .ok ()
  else
    match st.mongoUri with
    | none => .error "MongoDB URI not found in Firebase Functions config. Set using \x27firebase functions:config:set mongodb.uri=...\x27"
    | some _ => env.connectOutcome

/-- The outbound calls made by `connectToMongo`: a fresh connection attempt is
made only when no live connection exists and the URI is present. -/
def connectTrace (st : ModuleState) (env : Env) : List Event :=
  if env.hasLiveConnection then []
  else
    match st.mongoUri with
    | none => []
    | some _ => [.connect]

/-! ## The callable request handler (part_000 lines 77-189) -/

/-- Payload of the callable request (`data`). -/
structure CallData where
  fileContent : Option JSVal
  fileName : Option JSVal
  deriving Repr, DecidableEq

/-- Call context; `auth` is the verified identity, `some uid` when present. -/
structure CallContext where
  auth : Option String
  deriving Repr, DecidableEq

/-- A `functions.https.HttpsError` with its code and message. -/
structure HttpsError where
  code : String
  message : String
  deriving Repr, DecidableEq

/-- The success object returned to the frontend (part_000 lines 162-168). -/
structure SuccessResponse where
  status : String
  reportId : String
  report : String
  fileName : String
  createdAt : Nat
  deriving Repr, DecidableEq

/-- Result, outbound-call trace, and final stored Report Record (if any was
inserted) of one invocation. -/
structure HandlerOutcome where
  result : Except HttpsError SuccessResponse
  trace : List Event
  record : Option AnalysisRecord

/-- The validation of `fileContent` (part_000 line 88):
`!fileContent || typeof fileContent !== "string" || fileContent.trim() === ""`. -/
def fileContentInvalid (fc : Option JSVal) : Bool :=
  match fc with
  | none => true
  | some v => !v.truthy || !v.isString || (jsTrim v.asString == "")

/-- The validation of `fileName` (part_000 line 92):
`!fileName || typeof fileName !== "string"`. -/
def fileNameInvalid (fn : Option JSVal) : Bool :=
  match fn with
  | none => true
  | some v => !v.truthy || !v.isString

/-- The user query sent to the generation service (part_000 line 136). -/
def userQueryFor (fileContent : String) : String :=
  "\n\nRAW CSV DATA START:\n" ++ fileContent ++ "\nRAW CSV DATA END"

/-- The initial Report Record prepared by the handler (part_000 lines
112-119): status `"processing"`, `report` and `error` both null. -/
def analysisRecord (userId fileName : String) (createdAt : Nat) : AnalysisRecord :=
  { userId := userId, fileName := fileName, status := "processing",
    createdAt := createdAt, report := none, error := none, lastUpdated := none }

/-- The string of the validated `fileContent` field. -/
def contentOf (data : CallData) : String :=
  (data.fileContent.getD .null).asString

/-- The string of the validated `fileName` field. -/
def nameOf (data : CallData) : String :=
  (data.fileName.getD .null).asString

/-- The initial record of this invocation. -/
def recordOf (env : Env) (data : CallData) (userId : String) : AnalysisRecord :=
  analysisRecord userId (nameOf data) env.insertTime

/-- Outbound calls up to and including the initial insert. -/
def traceThroughInsert (st : ModuleState) (env : Env) (data : CallData)
    (userId : String) : List Event :=
  connectTrace st env ++ [.insert (recordOf env data userId)]

/-- Outbound calls up to and including the generation call. -/
def traceThroughGenerate (st : ModuleState) (env : Env) (data : CallData)
    (userId : String) : List Event :=
  traceThroughInsert st env data userId ++ [.generate systemPrompt (userQueryFor (contentOf data))]

/-- `err.message || "Unknown error during analysis."` (part_000 line 173). -/
def errorMessageOf (m : String) : String :=
  if m == "" then "Unknown error during analysis." else m

/-- The centralized catch block (part_000 lines 170-188): best-effort update
of the record to `error` status when an id exists (failures of that update are
only logged), then an internal `HttpsError` carrying the original message. -/
def handleFailure (env : Env) (mongoDocId : Option Nat) (db : Option AnalysisRecord)
    (trace : List Event) (msg : String) : HandlerOutcome :=
  match mongoDocId with
  | none =>
    { result := .error ⟨"internal", "AI Analysis Failed: " ++ errorMessageOf msg⟩
      trace := trace
      record := db }
  | some id =>
    { result := .error ⟨"internal", "AI Analysis Failed: " ++ errorMessageOf msg⟩
      trace := trace ++ [.updateError id (errorMessageOf msg)]
      record :=
        match env.updateErrorOutcome with
        | .error _ => db
        | .ok modified =>
          if modified then
            db.map fun r =>
              { r with status := "error", error := some (errorMessageOf msg),
                       lastUpdated := some env.updateTime }
          else db }

/-- Extraction of the report text in the callable function (part_000 lines
143-147): the response object, its `candidates` field, and a truthy
`candidates[0]?.content?.parts?.[0]?.text` must all be present. -/
def extractReportText (r : GenResult) : Option String :=
  match r.response with
  | none => none
  | some resp =>
    match resp.candidates with
    | none => none
    | some _ =>
      match candidatesText resp with
      | none => none
      | some t => if t == "" then none else some t

/-- The callable cloud function `analyzeCsvContent` (part_000 lines 77-189). -/
def analyzeCsvContent (st : ModuleState) (env : Env) (data : CallData)
    (ctx : CallContext) : HandlerOutcome :=
  match ctx.auth with
  | none =>
    { result := .error ⟨"unauthenticated", "The function must be called while authenticated."⟩
      trace := []
      record := none }
  | some userId =>
    if fileContentInvalid data.fileContent then
      { result := .error ⟨"invalid-argument", "The function must be called with a non-empty \"fileContent\" string."⟩
        trace := []
        record := none }
    else if fileNameInvalid data.fileName then
      { result := .error ⟨"invalid-argument", "The function must be called with a \"fileName\" string."⟩
        trace := []
        record := none }
    else
      match st.genAI with
      | none =>
        { result := .error ⟨"internal", "AI Service Initialization Failed. Contact support."⟩
          trace := []
          record := none }
      | some _ =>
        match connectToMongo st env with
        | .error _ =>
          { result := .error ⟨"internal", "Database connection failed. Contact support."⟩
            trace := connectTrace st env
            record := none }
        | .ok _ =>
          match env.insertOutcome with
          | .error m => handleFailure env none none (traceThroughInsert st env data userId) m
          | .ok mongoDocId =>
            match env.genOutcome with
            | .error m =>
              handleFailure env (some mongoDocId) (some (recordOf env data userId))
                (traceThroughGenerate st env data userId) m
            | .ok result =>
              match extractReportText result with
              | none =>
                handleFailure env (some mongoDocId) (some (recordOf env data userId))
                  (traceThroughGenerate st env data userId)
                  "AI analysis returned an invalid or empty response structure."
              | some reportText =>
                match env.updateCompletedOutcome with
                | .error m =>
                  handleFailure env (some mongoDocId) (some (recordOf env data userId))
                    (traceThroughGenerate st env data userId ++ [.updateCompleted mongoDocId reportText]) m
                | .ok modified =>
                  { result := .ok { status := "completed",
                                    reportId := toString mongoDocId,
                                    report := reportText,
                                    fileName := nameOf data,
                                    createdAt := (recordOf env data userId).createdAt }
                    trace := traceThroughGenerate st env data userId ++ [.updateCompleted mongoDocId reportText]
                    record :=
                      if modified then
                        some { recordOf env data userId with
                               status := "completed", report := some reportText,
                               lastUpdated := some env.updateTime }
                      else some (recordOf env data userId) }

/-! ## Predicates used by the verified properties -/

/-- The terminal-state invariant of a Report Record: once the status has left
`"processing"`, exactly one of `report` and `error` is non-null. -/
def recordInvariant (r : AnalysisRecord) : Prop :=
  (r.status = "completed" → r.report ≠ none ∧ r.error = none) ∧
  (r.status = "error" → r.error ≠ none ∧ r.report = none)

/-- Whether a record is the initial `"processing"` record with both content
fields null. -/
def isProcessingRecord (r : AnalysisRecord) : Bool :=
  r.status == "processing" && r.report.isNone && r.error.isNone

/-- Whether an event is the insertion of an initial `"processing"` record. -/
def isProcessingInsert : Event → Bool
  | .insert r => isProcessingRecord r
  | _ => false

/-- Scanning an outbound-call trace from the start: `true` iff no generation
call occurs before the first insertion of a `"processing"` record. -/
def insertPrecedesGenerate : List Event → Bool
  | [] => true
  | .generate _ _ :: _ => false
  | .insert r :: rest => if isProcessingRecord r then true else insertPrecedesGenerate rest
  | _ :: rest => insertPrecedesGenerate rest

end Callable

namespace Vercel

/-- The persona instruction of the Vercel endpoint (analyze.js lines 7-14). -/
def systemPrompt : String := "You are a world-class SME Financial and Business Analyst. Your task is to process the following raw CSV data and return a detailed, professional business report. The response must be structured using Markdown.\n\nThe report should contain the following four sections, using the data provided:\n1. EXECUTIVE SUMMARY: A single paragraph summarizing the key trends and overall health.\n2. ACTIONABLE INSIGHTS: Provide 5 clear, numbered, and specific recommendations to boost efficiency and ROI based on the data.\n3. KEY PERFORMANCE INDICATORS (KPIs) & TRENDS: Calculate and present 3-4 key growth metrics (e.g., total profit, average revenue/customer, profit margin percentage) and describe a clear trend (positive/negative) for each.\n4. ROI & FORECAST: Provide a short forecast (2-3 sentences) based on current performance.\n"

/-- Body of an incoming HTTP request. -/
structure ReqBody where
  fileContent : Option JSVal
  deriving Repr, DecidableEq

/-- An incoming HTTP request. -/
structure HttpRequest where
  method : String
  body : ReqBody
  deriving Repr, DecidableEq

/-- What the endpoint sends back. -/
inductive RespBody where
  | messageOnly (message : String)
  | reportBody (report : String)
  | serverFailure (message : String) (details : String)
  deriving Repr, DecidableEq

/-- An HTTP response with its status code. -/
structure HttpResponse where
  status : Nat
  body : RespBody
  deriving Repr, DecidableEq

/-- Outcome of `ai.models.generateContent` for one invocation. -/
structure Env where
  genOutcome : Except String GenResponse

/-- String interpolation `${v}` of a payload value. -/
def jsToString : JSVal → String
  | .str s => s
  | .num n => toString n
  | .boolean b => if b then "true" else "false"
  | .null => "null"

/-- The Vercel serverless handler (analyze.js lines 16-50). -/
def handler (req : HttpRequest) (env : Env) : HttpResponse × List Event :=
  if !(req.method == "POST") then
    ({ status := 405, body := .messageOnly "Only POST requests allowed." }, [])
  else
    let fc := req.body.fileContent
    if !((fc.getD .null).truthy) then
      ({ status := 400, body := .messageOnly "Missing file content in request body." }, [])
    else
      let userPart := "\nRAW CSV DATA START:\n" ++ jsToString (fc.getD .null) ++ "\nRAW CSV DATA END"
      let trace := [Event.generate systemPrompt userPart]
      match env.genOutcome with
      | .error msg =>
        ({ status := 500,
           body := .serverFailure "AI analysis failed due to a server error. Check GEMINI_API_KEY setting." msg },
         trace)
      | .ok response =>
        let reportText :=
          match candidatesText response with
          | none => "AI analysis failed to generate a report."
          | some t => if t == "" then "AI analysis failed to generate a report." else t
        ({ status := 200, body := .reportBody reportText }, trace)

end Vercel

/-! # Theorems -/

namespace Callable

/-- Claim C9: a request without caller identity is rejected with an
unauthenticated error before any other validation, record creation, or
external call: for every payload, module state and environment the outcome is
the unauthenticated `HttpsError` with an empty outbound-call trace and no
stored record. -/
theorem unauthenticated_rejected_first (st : ModuleState) (env : Env)
    (data : CallData) (ctx : CallContext) (hauth : ctx.auth = none) :
    analyzeCsvContent st env data ctx =
      { result := .error ⟨"unauthenticated", "The function must be called while authenticated."⟩
        trace := []
        record := none } := by
  unfold analyzeCsvContent
  rw [hauth]

/-- Witness for `unauthenticated_rejected_first` at a concrete request whose
payload is otherwise valid and whose environment would let every later step
succeed. -/
theorem unauthenticated_rejected_first_witness :
    analyzeCsvContent ⟨some "mongodb+srv://u:p@c", some ⟨"AIzaKey"⟩⟩
      ⟨false, .ok (), .ok 1, .error "boom", .ok true, .ok true, 0, 1⟩
      ⟨some (.str "a,b"), some (.str "sales.csv")⟩ ⟨none⟩ =
      { result := .error ⟨"unauthenticated", "The function must be called while authenticated."⟩
        trace := []
        record := none } :=
  unauthenticated_rejected_first _ _ _ _ rfl

/-- Claim C5: a request whose `fileContent` is absent, not a string, or
whitespace-only is rejected with an invalid-argument error before any Report
Record is inserted and before any external call: the outcome is the
invalid-argument `HttpsError` with an empty trace and no record.  (An
unauthenticated request is rejected even earlier, with the unauthenticated
error of `unauthenticated_rejected_first`, so the caller identity is assumed
present here.) -/
theorem invalid_fileContent_rejected_early (st : ModuleState) (env : Env)
    (data : CallData) (ctx : CallContext) (uid : String)
    (hauth : ctx.auth = some uid)
    (hfc : fileContentInvalid data.fileContent = true) :
    analyzeCsvContent st env data ctx =
      { result := .error ⟨"invalid-argument", "The function must be called with a non-empty \"fileContent\" string."⟩
        trace := []
        record := none } := by
  unfold analyzeCsvContent
  rw [hauth]
  simp [hfc]

/-- Witness for `invalid_fileContent_rejected_early` at a whitespace-only
`fileContent`. -/
theorem invalid_fileContent_rejected_early_witness :
    analyzeCsvContent ⟨some "mongodb+srv://u:p@c", some ⟨"AIzaKey"⟩⟩
      ⟨false, .ok (), .ok 1, .ok ⟨none⟩, .ok true, .ok true, 0, 1⟩
      ⟨some (.str "  \n  "), some (.str "sales.csv")⟩ ⟨some "user1"⟩ =
      { result := .error ⟨"invalid-argument", "The function must be called with a non-empty \"fileContent\" string."⟩
        trace := []
        record := none } :=
  invalid_fileContent_rejected_early _ _ _ _ "user1" rfl (by decide)

/-- Counterexample to claim C8: initialization does NOT fail at process start
when a secret is absent.  With the generation-service API key absent the
module load still completes (the failure is caught and only logged, leaving
`genAI` unset), and with the document-store connection string absent the
module load also completes (the string is only checked on first use). -/
theorem missing_secret_load_still_succeeds :
    (moduleLoad { mongodb := some { uri := some "mongodb+srv://u:p@cluster" },
                  gemini := some { key := none } } =
      .ok { mongoUri := some "mongodb+srv://u:p@cluster", genAI := none }) ∧
    (moduleLoad { mongodb := some { uri := none },
                  gemini := some { key := some "AIzaKey" } } =
      .ok { mongoUri := none, genAI := some { apiKey := "AIzaKey" } }) :=
  ⟨rfl, rfl⟩

/-- Claim C8 as amended: absence of either secret does not abort process
start, but it does block every request before any record insert or generation
call: a validated, authenticated request finds `genAI` unset (absent API key)
or the connection attempt failing on the absent URI, and is rejected with an
internal error, with an empty outbound-call trace and no stored record. -/
theorem missing_secret_blocks_request (st : ModuleState) (env : Env)
    (data : CallData) (ctx : CallContext) (uid : String)
    (hauth : ctx.auth = some uid)
    (hfc : fileContentInvalid data.fileContent = false)
    (hfn : fileNameInvalid data.fileName = false)
    (hmiss : st.genAI = none ∨ (st.mongoUri = none ∧ env.hasLiveConnection = false)) :
    (analyzeCsvContent st env data ctx).trace = [] ∧
    (analyzeCsvContent st env data ctx).record = none ∧
    ∃ m, (analyzeCsvContent st env data ctx).result = .error ⟨"internal", m⟩ := by
  rcases hmiss with hga | ⟨hmu, hlive⟩
  · refine ⟨?_, ?_, ?_⟩ <;>
      simp [analyzeCsvContent, hauth, hfc, hfn, hga]
  · cases hga : st.genAI with
    | none =>
      refine ⟨?_, ?_, ?_⟩ <;>
        simp [analyzeCsvContent, hauth, hfc, hfn, hga]
    | some g =>
      refine ⟨?_, ?_, ?_⟩ <;>
        simp [analyzeCsvContent, connectToMongo, connectTrace, hauth, hfc, hfn, hga, hmu, hlive]

/-- Witness for `missing_secret_blocks_request`: with the API key absent at
load (so `genAI` is unset), a valid authenticated request is blocked. -/
theorem missing_secret_blocks_request_witness :
    (analyzeCsvContent ⟨some "mongodb+srv://u:p@c", none⟩
        ⟨false, .ok (), .ok 1, .ok ⟨none⟩, .ok true, .ok true, 0, 1⟩
        ⟨some (.str "a,b"), some (.str "sales.csv")⟩ ⟨some "user1"⟩).trace = [] ∧
    (analyzeCsvContent ⟨some "mongodb+srv://u:p@c", none⟩
        ⟨false, .ok (), .ok 1, .ok ⟨none⟩, .ok true, .ok true, 0, 1⟩
        ⟨some (.str "a,b"), some (.str "sales.csv")⟩ ⟨some "user1"⟩).record = none ∧
    ∃ m, (analyzeCsvContent ⟨some "mongodb+srv://u:p@c", none⟩
        ⟨false, .ok (), .ok 1, .ok ⟨none⟩, .ok true, .ok true, 0, 1⟩
        ⟨some (.str "a,b"), some (.str "sales.csv")⟩ ⟨some "user1"⟩).result = .error ⟨"internal", m⟩ :=
  missing_secret_blocks_request _ _ _ _ "user1" rfl (by decide) (by decide) (Or.inl rfl)

end Callable

namespace Vercel

/-- Claim C10: any request to the HTTP analysis endpoint whose method is not
POST is answered with status 405 and makes no generation call or other side
effect (empty outbound-call trace), for every request body and environment. -/
theorem non_post_rejected (req : HttpRequest) (env : Env)
    (h : req.method ≠ "POST") :
    handler req env =
      ({ status := 405, body := .messageOnly "Only POST requests allowed." }, []) := by
  unfold handler
  simp [h]

/-- Witness for `non_post_rejected` at a GET request with a valid body. -/
theorem non_post_rejected_witness :
    handler { method := "GET", body := { fileContent := some (.str "a,b") } } ⟨.error "x"⟩ =
      ({ status := 405, body := .messageOnly "Only POST requests allowed." }, []) :=
  non_post_rejected _ _ (by decide)

end Vercel

namespace Callable

/-- Claim C1: when the generation call returns a response with extractable
text (and the environment lets the surrounding document-store calls go
through), the Report Record is updated to status `"completed"` with `report`
set to the generated text and `error` still null, and the handler returns a
success object carrying that status and report text. -/
theorem generation_success_completes_record (st : ModuleState) (env : Env)
    (data : CallData) (ctx : CallContext) (uid : String) (g : GenAI)
    (id : Nat) (res : GenResult) (txt : String)
    (hauth : ctx.auth = some uid)
    (hfc : fileContentInvalid data.fileContent = false)
    (hfn : fileNameInvalid data.fileName = false)
    (hg : st.genAI = some g)
    (hconn : connectToMongo st env = .ok ())
    (hins : env.insertOutcome = .ok id)
    (hgen : env.genOutcome = .ok res)
    (htxt : extractReportText res = some txt)
    (hupd : env.updateCompletedOutcome = .ok true) :
    (analyzeCsvContent st env data ctx).record =
      some { userId := uid, fileName := nameOf data, status := "completed",
             createdAt := env.insertTime, report := some txt, error := none,
             lastUpdated := some env.updateTime } ∧
    (analyzeCsvContent st env data ctx).result =
      .ok { status := "completed", reportId := toString id, report := txt,
            fileName := nameOf data, createdAt := env.insertTime } := by
  constructor <;>
    simp [analyzeCsvContent, hauth, hfc, hfn, hg, hconn, hins, hgen, htxt, hupd,
          recordOf, analysisRecord]

/-- Witness for `generation_success_completes_record` at a concrete request
with a well-formed generation response. -/
theorem generation_success_completes_record_witness :
    (analyzeCsvContent ⟨some "mongodb+srv://u:p@c", some ⟨"AIzaKey"⟩⟩
        ⟨false, .ok (), .ok 7,
         .ok ⟨some ⟨some [⟨some ⟨[⟨some "# REPORT"⟩]⟩⟩]⟩⟩, .ok true, .ok true, 10, 11⟩
        ⟨some (.str "a,b\n1,2"), some (.str "sales.csv")⟩ ⟨some "user1"⟩).record =
      some { userId := "user1",
             fileName := nameOf ⟨some (.str "a,b\n1,2"), some (.str "sales.csv")⟩,
             status := "completed", createdAt := 10, report := some "# REPORT",
             error := none, lastUpdated := some 11 } ∧
    (analyzeCsvContent ⟨some "mongodb+srv://u:p@c", some ⟨"AIzaKey"⟩⟩
        ⟨false, .ok (), .ok 7,
         .ok ⟨some ⟨some [⟨some ⟨[⟨some "# REPORT"⟩]⟩⟩]⟩⟩, .ok true, .ok true, 10, 11⟩
        ⟨some (.str "a,b\n1,2"), some (.str "sales.csv")⟩ ⟨some "user1"⟩).result =
      .ok { status := "completed", reportId := toString 7, report := "# REPORT",
            fileName := nameOf ⟨some (.str "a,b\n1,2"), some (.str "sales.csv")⟩,
            createdAt := 10 } :=
  generation_success_completes_record _ _ _ _ "user1" ⟨"AIzaKey"⟩ 7 _ "# REPORT"
    rfl (by decide) (by decide) rfl rfl rfl rfl rfl rfl

/-- Claim C2: once the initial Report Record has been inserted, a failure of
any later step (the generation call, the extraction of the response text, or
the completed-update) leads, provided the best-effort error write itself goes
through, to the record holding status `"error"` with `error` set to the
failure message and `report` still null, and to the caller receiving an
internal error carrying that same message. -/
theorem later_step_failure_error_record (st : ModuleState) (env : Env)
    (data : CallData) (ctx : CallContext) (uid : String) (g : GenAI) (id : Nat)
    (hauth : ctx.auth = some uid)
    (hfc : fileContentInvalid data.fileContent = false)
    (hfn : fileNameInvalid data.fileName = false)
    (hg : st.genAI = some g)
    (hconn : connectToMongo st env = .ok ())
    (hins : env.insertOutcome = .ok id)
    (hfail : (∃ m, env.genOutcome = .error m) ∨
             (∃ res, env.genOutcome = .ok res ∧ extractReportText res = none) ∨
             (∃ res txt m, env.genOutcome = .ok res ∧ extractReportText res = some txt ∧
                env.updateCompletedOutcome = .error m))
    (hbe : env.updateErrorOutcome = .ok true) :
    ∃ m, (analyzeCsvContent st env data ctx).record =
        some { userId := uid, fileName := nameOf data, status := "error",
               createdAt := env.insertTime, report := none, error := some m,
               lastUpdated := some env.updateTime } ∧
      (analyzeCsvContent st env data ctx).result =
        .error ⟨"internal", "AI Analysis Failed: " ++ m⟩ := by
  rcases hfail with ⟨m, hm⟩ | ⟨res, hres, hx⟩ | ⟨res, txt, m, hres, hx, hm⟩
  · exact ⟨errorMessageOf m, by
      constructor <;>
        simp [analyzeCsvContent, handleFailure, hauth, hfc, hfn, hg, hconn, hins,
              hm, hbe, recordOf, analysisRecord]⟩
  · exact ⟨errorMessageOf "AI analysis returned an invalid or empty response structure.", by
      constructor <;>
        simp [analyzeCsvContent, handleFailure, hauth, hfc, hfn, hg, hconn, hins,
              hres, hx, hbe, recordOf, analysisRecord]⟩
  · exact ⟨errorMessageOf m, by
      constructor <;>
        simp [analyzeCsvContent, handleFailure, hauth, hfc, hfn, hg, hconn, hins,
              hres, hx, hm, hbe, recordOf, analysisRecord]⟩

/-- Witness for `later_step_failure_error_record` at a request whose
generation call throws. -/
theorem later_step_failure_error_record_witness :
    ∃ m, (analyzeCsvContent ⟨some "mongodb+srv://u:p@c", some ⟨"AIzaKey"⟩⟩
        ⟨false, .ok (), .ok 7, .error "quota exceeded", .ok true, .ok true, 10, 11⟩
        ⟨some (.str "a,b\n1,2"), some (.str "sales.csv")⟩ ⟨some "user1"⟩).record =
        some { userId := "user1",
               fileName := nameOf ⟨some (.str "a,b\n1,2"), some (.str "sales.csv")⟩,
               status := "error", createdAt := 10, report := none, error := some m,
               lastUpdated := some 11 } ∧
      (analyzeCsvContent ⟨some "mongodb+srv://u:p@c", some ⟨"AIzaKey"⟩⟩
        ⟨false, .ok (), .ok 7, .error "quota exceeded", .ok true, .ok true, 10, 11⟩
        ⟨some (.str "a,b\n1,2"), some (.str "sales.csv")⟩ ⟨some "user1"⟩).result =
        .error ⟨"internal", "AI Analysis Failed: " ++ m⟩ :=
  later_step_failure_error_record _ _ _ _ "user1" ⟨"AIzaKey"⟩ 7
    rfl (by decide) (by decide) rfl rfl rfl (Or.inl ⟨"quota exceeded", rfl⟩) rfl

/-- Claim C6 as amended, callable side: the callable function treats a
generation response lacking extractable text as a failure of its own (a fixed
invalid-response message, distinct from any transport error message it would
merely relay), and does not return such a response as a successful report:
the caller receives an internal error built from that fixed message. -/
theorem missing_text_is_distinct_failure (st : ModuleState) (env : Env)
    (data : CallData) (ctx : CallContext) (uid : String) (g : GenAI) (id : Nat)
    (res : GenResult)
    (hauth : ctx.auth = some uid)
    (hfc : fileContentInvalid data.fileContent = false)
    (hfn : fileNameInvalid data.fileName = false)
    (hg : st.genAI = some g)
    (hconn : connectToMongo st env = .ok ())
    (hins : env.insertOutcome = .ok id)
    (hgen : env.genOutcome = .ok res)
    (hx : extractReportText res = none) :
    (analyzeCsvContent st env data ctx).result =
      .error ⟨"internal", "AI Analysis Failed: AI analysis returned an invalid or empty response structure."⟩ := by
  simp [analyzeCsvContent, handleFailure, errorMessageOf, hauth, hfc, hfn, hg, hconn,
        hins, hgen, hx]

/-- Witness for `missing_text_is_distinct_failure` at a response whose
`candidates` array is empty. -/
theorem missing_text_is_distinct_failure_witness :
    (analyzeCsvContent ⟨some "mongodb+srv://u:p@c", some ⟨"AIzaKey"⟩⟩
        ⟨false, .ok (), .ok 7, .ok ⟨some ⟨some []⟩⟩, .ok true, .ok true, 10, 11⟩
        ⟨some (.str "a,b\n1,2"), some (.str "sales.csv")⟩ ⟨some "user1"⟩).result =
      .error ⟨"internal", "AI Analysis Failed: AI analysis returned an invalid or empty response structure."⟩ :=
  missing_text_is_distinct_failure _ _ _ _ "user1" ⟨"AIzaKey"⟩ 7 ⟨some ⟨some []⟩⟩
    rfl (by decide) (by decide) rfl rfl rfl rfl rfl

end Callable

/-- Counterexample to claim C6: the Vercel HTTP endpoint does NOT treat a
response lacking extractable text as a failure — it substitutes a fixed
placeholder string and returns it as a successful report with status 200. -/
theorem vercel_missing_text_returned_as_success :
    (Vercel.handler { method := "POST", body := { fileContent := some (.str "a,b\n1,2") } }
        ⟨.ok { candidates := some [] }⟩).1 =
      { status := 200, body := .reportBody "AI analysis failed to generate a report." } :=
  rfl

namespace Callable

/-- Claim C3: every Report Record the handler leaves behind satisfies the
lifecycle invariant — once its status is `"completed"` or `"error"`, exactly
one of `report` and `error` is non-null (`report` set and `error` null when
completed, `error` set and `report` null on error) — over all payloads,
module states and environment outcomes. -/
theorem terminal_record_exactly_one_field (st : ModuleState) (env : Env)
    (data : CallData) (ctx : CallContext) (r : AnalysisRecord)
    (h : (analyzeCsvContent st env data ctx).record = some r) :
    recordInvariant r := by
  unfold analyzeCsvContent handleFailure at h
  repeat' split at h
  all_goals (try simp only [recordOf, analysisRecord, Option.map] at h)
  all_goals
    first
      | (simp at h; done)
      | (rw [Option.some_inj] at h
         rw [← h]
         unfold recordInvariant
         constructor <;> intro hs <;> simp_all)

/-- Witness for `terminal_record_exactly_one_field` at the record produced by
a successful run. -/
theorem terminal_record_exactly_one_field_witness :
    recordInvariant { userId := "user1", fileName := "sales.csv",
                      status := "completed", createdAt := 10,
                      report := some "# REPORT", error := none,
                      lastUpdated := some 11 } :=
  terminal_record_exactly_one_field ⟨some "mongodb+srv://u:p@c", some ⟨"AIzaKey"⟩⟩
    ⟨false, .ok (), .ok 7,
     .ok ⟨some ⟨some [⟨some ⟨[⟨some "# REPORT"⟩]⟩⟩]⟩⟩, .ok true, .ok true, 10, 11⟩
    ⟨some (.str "a,b\n1,2"), some (.str "sales.csv")⟩ ⟨some "user1"⟩ _ rfl

/-- No outbound generation call is ever recorded by `connectToMongo`. -/
theorem generate_not_mem_connectTrace (st : ModuleState) (env : Env)
    (sys uq : String) : Event.generate sys uq ∉ connectTrace st env := by
  unfold connectTrace
  repeat' split
  all_goals simp

/-- Claim C4: for a valid request from an authenticated caller (with the
services initialised and the connection step succeeding), the handler records
the insertion of a Report Record in status `"processing"` with `report` and
`error` null, and no generation call ever occurs before that insertion in the
outbound-call trace. -/
theorem processing_insert_before_generation (st : ModuleState) (env : Env)
    (data : CallData) (ctx : CallContext) (uid : String) (g : GenAI)
    (hauth : ctx.auth = some uid)
    (hfc : fileContentInvalid data.fileContent = false)
    (hfn : fileNameInvalid data.fileName = false)
    (hg : st.genAI = some g)
    (hconn : connectToMongo st env = .ok ()) :
    (analyzeCsvContent st env data ctx).trace.any isProcessingInsert = true ∧
    insertPrecedesGenerate (analyzeCsvContent st env data ctx).trace = true := by
  have hct : connectTrace st env = [] ∨ connectTrace st env = [.connect] := by
    unfold connectToMongo at hconn
    unfold connectTrace
    by_cases hl : env.hasLiveConnection
    · simp [hl]
    · simp [hl] at hconn ⊢
      cases hmu : st.mongoUri with
      | none => simp [hmu] at hconn
      | some u => simp [hmu]
  obtain ⟨tail, htr⟩ : ∃ tail, (analyzeCsvContent st env data ctx).trace =
      connectTrace st env ++ .insert (recordOf env data uid) :: tail := by
    unfold analyzeCsvContent
    rw [hauth]
    simp only [hfc, hfn, hg, hconn]
    simp only [Bool.false_eq_true, if_false]
    cases hins : env.insertOutcome with
    | error m =>
      refine ⟨[], ?_⟩
      simp [hins, handleFailure, traceThroughInsert]
    | ok id =>
      cases hgen : env.genOutcome with
      | error m =>
        refine ⟨[.generate systemPrompt (userQueryFor (contentOf data)),
                 .updateError id (errorMessageOf m)], ?_⟩
        simp [hins, hgen, handleFailure, traceThroughGenerate, traceThroughInsert]
      | ok res =>
        cases hx : extractReportText res with
        | none =>
          refine ⟨[.generate systemPrompt (userQueryFor (contentOf data)),
                   .updateError id (errorMessageOf "AI analysis returned an invalid or empty response structure.")], ?_⟩
          simp [hins, hgen, hx, handleFailure, traceThroughGenerate, traceThroughInsert]
        | some txt =>
          cases hupd : env.updateCompletedOutcome with
          | error m =>
            refine ⟨[.generate systemPrompt (userQueryFor (contentOf data)),
                     .updateCompleted id txt,
                     .updateError id (errorMessageOf m)], ?_⟩
            simp [hins, hgen, hx, hupd, handleFailure, traceThroughGenerate, traceThroughInsert]
          | ok modified =>
            refine ⟨[.generate systemPrompt (userQueryFor (contentOf data)),
                     .updateCompleted id txt], ?_⟩
            simp [hins, hgen, hx, hupd, traceThroughGenerate, traceThroughInsert]
  rw [htr]
  rcases hct with hct | hct <;>
    simp [hct, insertPrecedesGenerate, isProcessingInsert, isProcessingRecord,
          recordOf, analysisRecord]

/-- Claim C7 as amended, callable side: every generation call recorded in an
outbound-call trace of the callable function carries the fixed persona
instruction, and that instruction requests five Markdown sections named
Executive Summary, Actionable Insights, KPIs & Trends, ROI & Forecast and
Critical Alerts. -/
theorem generation_carries_five_section_persona (st : ModuleState) (env : Env)
    (data : CallData) (ctx : CallContext) (sys uq : String)
    (h : Event.generate sys uq ∈ (analyzeCsvContent st env data ctx).trace) :
    sys = systemPrompt ∧
    containsStr "five sections" sys = true ∧
    containsStr "EXECUTIVE SUMMARY" sys = true ∧
    containsStr "ACTIONABLE INSIGHTS" sys = true ∧
    containsStr "(KPIs) & TRENDS" sys = true ∧
    containsStr "ROI & FORECAST" sys = true ∧
    containsStr "CRITICAL ALERTS" sys = true := by
  have hsys : sys = systemPrompt := by
    unfold analyzeCsvContent handleFailure at h
    repeat' split at h
    all_goals
      simp [traceThroughGenerate, traceThroughInsert,
            generate_not_mem_connectTrace] at h
    all_goals tauto
  subst hsys
  exact ⟨rfl, by decide, by decide, by decide, by decide, by decide, by decide⟩

/-- Witness for `generation_carries_five_section_persona` at a concrete
request whose trace contains a generation call. -/
theorem generation_carries_five_section_persona_witness :
    systemPrompt = systemPrompt ∧
    containsStr "five sections" systemPrompt = true ∧
    containsStr "EXECUTIVE SUMMARY" systemPrompt = true ∧
    containsStr "ACTIONABLE INSIGHTS" systemPrompt = true ∧
    containsStr "(KPIs) & TRENDS" systemPrompt = true ∧
    containsStr "ROI & FORECAST" systemPrompt = true ∧
    containsStr "CRITICAL ALERTS" systemPrompt = true :=
  generation_carries_five_section_persona
    ⟨some "mongodb+srv://u:p@c", some ⟨"AIzaKey"⟩⟩
    ⟨false, .ok (), .ok 7, .error "boom", .ok true, .ok true, 10, 11⟩
    ⟨some (.str "a,b"), some (.str "sales.csv")⟩ ⟨some "user1"⟩
    systemPrompt (userQueryFor (contentOf ⟨some (.str "a,b"), some (.str "sales.csv")⟩))
    (List.Mem.tail _ (List.Mem.tail _ (List.Mem.head _)))

end Callable

/-- Counterexample to claim C7: the Vercel endpoint's outbound generation
call carries a persona instruction that requests only four sections and does
not mention the Critical Alerts section at all. -/
theorem vercel_prompt_lacks_critical_alerts :
    (Vercel.handler { method := "POST", body := { fileContent := some (.str "a,b") } }
        ⟨.error "boom"⟩).2 =
      [Event.generate Vercel.systemPrompt
        ("\nRAW CSV DATA START:\n" ++ Vercel.jsToString (.str "a,b") ++ "\nRAW CSV DATA END")] ∧
    containsStr "CRITICAL ALERTS" Vercel.systemPrompt = false ∧
    containsStr "five sections" Vercel.systemPrompt = false ∧
    containsStr "four sections" Vercel.systemPrompt = true :=
  ⟨rfl, by decide, by decide, by decide⟩

namespace Callable

/-- Witness for `processing_insert_before_generation` at a concrete valid
request. -/
theorem processing_insert_before_generation_witness :
    (analyzeCsvContent ⟨some "mongodb+srv://u:p@c", some ⟨"AIzaKey"⟩⟩
        ⟨false, .ok (), .ok 7,
         .ok ⟨some ⟨some [⟨some ⟨[⟨some "# REPORT"⟩]⟩⟩]⟩⟩, .ok true, .ok true, 10, 11⟩
        ⟨some (.str "a,b\n1,2"), some (.str "sales.csv")⟩ ⟨some "user1"⟩).trace.any
      isProcessingInsert = true ∧
    insertPrecedesGenerate
      (analyzeCsvContent ⟨some "mongodb+srv://u:p@c", some ⟨"AIzaKey"⟩⟩
        ⟨false, .ok (), .ok 7,
         .ok ⟨some ⟨some [⟨some ⟨[⟨some "# REPORT"⟩]⟩⟩]⟩⟩, .ok true, .ok true, 10, 11⟩
        ⟨some (.str "a,b\n1,2"), some (.str "sales.csv")⟩ ⟨some "user1"⟩).trace = true :=
  processing_insert_before_generation _ _ _ _ "user1" ⟨"AIzaKey"⟩
    rfl (by decide) (by decide) rfl rfl

end Callable
